import Mathlib

/-!
Verification of the strong-exporter repository's transformation layer.

The definitions below are a shallow embedding of the TypeScript source:
`src/api/client.ts` (cell decoding, log transformation, the two pagination
loops) and `src/transform.ts` (CSV serialization, date filter).  JavaScript
strings are modelled as Lean `String`, JS `null`/`undefined` as `Option`,
and JS numbers as canonical decimal fractions (`JsNum`).  Stateful HTTP
pagination is modelled by passing a response oracle and a fuel parameter
(the fuel-exhausted case is a distinguished `diverge` result, standing for
a run of the JS loop that has not yet terminated).
-/

namespace StrongExporter

/-! ### JavaScript string primitives

`String.splitOn` and `String.replace` from the Lean library are defined by
well-founded recursion and do not reduce in the kernel, so the JS
`String.prototype.split` / `String.prototype.replace` operations used by the
source are embedded here as structurally recursive functions on `List Char`.
-/

/-- Splits a character list at every occurrence of `sep`, keeping empty
segments, exactly like JS `s.split(sep)` for a single-character separator. -/
def charSplit (sep : Char) : List Char → List (List Char)
  | [] => [[]]
  | c :: cs =>
    let r := charSplit sep cs
    if c = sep then [] :: r
    else
      match r with
      | [] => [[c]]
      | h :: t => (c :: h) :: t

/-- JS `s.split(sep)` for a one-character separator. -/
def jsSplitChar (s : String) (sep : Char) : List String :=
  (charSplit sep s.data).map String.mk

/-- Replaces every occurrence of `target` by the segment `repl`. -/
def replaceAllChar (target : Char) (repl : List Char) : List Char → List Char
  | [] => []
  | c :: cs => (if c = target then repl else [c]) ++ replaceAllChar target repl cs

/-- JS `s.replace(/"/g, '""')` — every double quote doubled. -/
def jsQuoteEscape (s : String) : String :=
  String.mk (replaceAllChar '\"' ['\"', '\"'] s.data)

/-! ### JavaScript number model

The numeric values handled by the source all arise from `parseFloat` /
`parseInt` on decimal strings, so JS numbers are modelled as exact decimal
fractions `num / 10 ^ scale` in canonical form (`scale = 0` or
`num % 10 ≠ 0`), which makes structural equality coincide with JS numeric
equality on these values, plus a `nan` value for failed parses. -/
inductive JsNum where
  | nan
  | val (num : Int) (scale : Nat)
deriving DecidableEq

/-- Brings `num / 10 ^ scale` to canonical form by removing common factors
of 10. -/
def canonDec : Int → Nat → Int × Nat
  | n, 0 => (n, 0)
  | n, s + 1 => if n % 10 = 0 then canonDec (n / 10) s else (n, s + 1)

/-- Builds the JS number `(±mant / 10 ^ scale) · 10 ^ exp`. -/
def JsNum.ofParts (neg : Bool) (mant : Nat) (scale : Nat) (exp : Int) : JsNum :=
  let sInt : Int := if neg then -(mant : Int) else (mant : Int)
  let pair : Int × Nat :=
    if 0 ≤ exp then
      let e := exp.toNat
      if scale ≤ e then (sInt * (10 : Int) ^ (e - scale), 0) else (sInt, scale - e)
    else (sInt, scale + (-exp).toNat)
  let canon := canonDec pair.1 pair.2
  .val canon.1 canon.2

/-- Whitespace skipped by JS numeric parsing. -/
def isJsSpace (c : Char) : Bool :=
  c = ' ' || c = '\t' || c = '\n' || c = '\r'

/-- Digit-string to natural number. -/
def digitsToNat (ds : List Char) : Nat :=
  ds.foldl (fun n c => n * 10 + (c.toNat - '0'.toNat)) 0

/-- Optional exponent part of a JS float literal; an ill-formed exponent is
simply not consumed, contributing a factor of `10 ^ 0`. -/
def parseExpPart (r : List Char) : Int :=
  let signed : Bool × List Char :=
    match r with
    | '+' :: t => (false, t)
    | '-' :: t => (true, t)
    | _ => (false, r)
  let ds := signed.2.takeWhile Char.isDigit
  if ds.isEmpty then 0
  else if signed.1 then -(digitsToNat ds : Int) else (digitsToNat ds : Int)

/-- JS `parseFloat` on decimal notation: optional leading whitespace, optional
sign, digits with an optional fractional part and an optional exponent; the
longest valid prefix is parsed and `NaN` results when no digit is found.
(The special `Infinity` literal and non-decimal forms never produced by the
backend are out of the model.) -/
def parseFloat (s : String) : JsNum :=
  let cs := s.data.dropWhile isJsSpace
  let signed : Bool × List Char :=
    match cs with
    | '+' :: r => (false, r)
    | '-' :: r => (true, r)
    | _ => (false, cs)
  let ip := signed.2.takeWhile Char.isDigit
  let cs1 := signed.2.dropWhile Char.isDigit
  let frac : List Char × List Char :=
    match cs1 with
    | '.' :: r => (r.takeWhile Char.isDigit, r.dropWhile Char.isDigit)
    | _ => ([], cs1)
  if ip.isEmpty && frac.1.isEmpty then .nan
  else
    let exp : Int :=
      match frac.2 with
      | 'e' :: r => parseExpPart r
      | 'E' :: r => parseExpPart r
      | _ => 0
    JsNum.ofParts signed.1 (digitsToNat (ip ++ frac.1)) frac.1.length exp

/-- JS `parseInt(s, 10)`: optional leading whitespace, optional sign, the
longest decimal-digit prefix; `NaN` when no digit is found. -/
def parseInt (s : String) : JsNum :=
  let cs := s.data.dropWhile isJsSpace
  let signed : Bool × List Char :=
    match cs with
    | '+' :: r => (false, r)
    | '-' :: r => (true, r)
    | _ => (false, cs)
  let ds := signed.2.takeWhile Char.isDigit
  if ds.isEmpty then .nan
  else if signed.1 then .val (-(digitsToNat ds : Int)) 0 else .val (digitsToNat ds : Nat) 0

/-- JS number-to-string conversion for the values of the model: `NaN` prints
as "NaN", integers without a decimal point, other decimal fractions with one
(no exponential notation, which JS only uses outside the magnitudes occurring
here). -/
def jsNumToString : JsNum → String
  | .nan => "NaN"
  | .val n 0 => toString n
  | .val n (s + 1) =>
    let sign := if n < 0 then "-" else ""
    let digits := (toString n.natAbs).data
    if digits.length ≤ s + 1 then
      sign ++ "0." ++ String.mk (List.replicate (s + 1 - digits.length) '0') ++ String.mk digits
    else
      sign ++ String.mk (digits.take (digits.length - (s + 1))) ++ "." ++
        String.mk (digits.drop (digits.length - (s + 1)))

example : parseFloat "100" = .val 100 0 := by decide
example : parseFloat "22.5" = .val 225 1 := by decide
example : parseFloat "-0.5" = .val (-5) 1 := by decide
example : parseFloat "1.5e1" = .val 15 0 := by decide
example : parseFloat "abc" = .nan := by decide
example : parseFloat "" = .nan := by decide
example : parseInt "5" = .val 5 0 := by decide
example : parseInt "5.9" = .val 5 0 := by decide
example : jsNumToString (.val 225 1) = "22.5" := by decide
example : jsNumToString (.val 100 0) = "100" := by decide
example : jsNumToString (.val (-5) 1) = "-0.5" := by decide

/-! ### API response model (interfaces from src/api/client.ts) -/

/-- One typed cell of a logged set (`interface Cell`). -/
structure Cell where
  cellType : String
  value : Option String := none
deriving DecidableEq

/-- One performed set: an ordered cell list and a tri-state completed flag
(`interface CellSet`). -/
structure CellSet where
  cells : List Cell
  isCompleted : Option Bool := none
deriving DecidableEq

/-- The `{ href?: string }` object inside a group's measurement link. -/
structure MeasurementLink where
  href : Option String := none
deriving DecidableEq

/-- The `_links` object of a cell-set-group. -/
structure GroupLinks where
  measurement : Option MeasurementLink := none
deriving DecidableEq

/-- All sets of one exercise in one log (`interface CellSetGroup`). -/
structure CellSetGroup where
  _links : Option GroupLinks := none
  cellSets : List CellSet
deriving DecidableEq

/-- The two locale-like name fields (`{ en?, custom? }`). -/
structure LocalizedName where
  en : Option String := none
  custom : Option String := none
deriving DecidableEq

/-- The `_embedded` object of a raw log. -/
structure LogEmbedded where
  cellSetGroup : Option (List CellSetGroup) := none
deriving DecidableEq

/-- A server-provided workout log (`interface RawLog`). -/
structure RawLog where
  id : String
  name : Option LocalizedName := none
  logType : Option String := none
  startDate : Option String := none
  endDate : Option String := none
  timezoneId : Option String := none
  _embedded : Option LogEmbedded := none
deriving DecidableEq

/-! ### Derived domain model (src/api/types.ts) -/

/-- A single performed set (`interface WorkoutSet`). -/
structure WorkoutSet where
  weightKg : Option JsNum := none
  reps : Option JsNum := none
  rpe : Option JsNum := none
  distance : Option JsNum := none
  duration : Option String := none
deriving DecidableEq

/-- An exercise with its completed/skipped partitions
(`interface WorkoutExercise`). -/
structure WorkoutExercise where
  name : String
  completedSets : List WorkoutSet
  skippedSets : List WorkoutSet
deriving DecidableEq

/-- A complete workout session (`interface Workout`). -/
structure Workout where
  id : String
  name : Option String := none
  startDate : Option String := none
  endDate : Option String := none
  timezone : Option String := none
  exercises : List WorkoutExercise
deriving DecidableEq

/-- Top-level export document (`interface ExportData`). -/
structure ExportData where
  exportedAt : String
  totalWorkouts : Nat
  workouts : List Workout
deriving DecidableEq

/-- Result of `parseSet`: the decoded set together with the tri-state
completed flag, or (as `Option.none` at the use site) "no set". -/
structure ParsedSet where
  set : WorkoutSet
  completed : Option Bool
deriving DecidableEq

/-! ### Cell Decoder (parseSet in src/api/client.ts) -/

/-- The four weight cell types treated as synonyms (`WEIGHT_CELL_TYPES`). -/
def WEIGHT_CELL_TYPES : List String :=
  ["OTHER_WEIGHT", "DUMBBELL_WEIGHT", "BARBELL_WEIGHT", "WEIGHTED_BODYWEIGHT"]

/-- Models the JS expression `cell?.value ? value : null`: the value of the
cell, provided the cell exists and the value is a truthy (non-empty)
string. -/
def truthyValue : Option Cell → Option String
  | some c =>
    match c.value with
    | some v => if v = "" then none else some v
    | none => none
  | none => none

/-- The Cell Decoder, `parseSet`: "no set" (`none`) for rest-timer/note
markers, otherwise the decoded `WorkoutSet` with the completed flag taken
verbatim from the cell-set. -/
def parseSet (cellSet : CellSet) : Option ParsedSet :=
  let types := cellSet.cells.map Cell.cellType
  if types.contains "REST_TIMER" || types.contains "NOTE" then none
  else
    let weightCell := cellSet.cells.find? (fun c => WEIGHT_CELL_TYPES.contains c.cellType)
    let repsCell := cellSet.cells.find? (fun c => c.cellType == "REPS")
    let rpeCell := cellSet.cells.find? (fun c => c.cellType == "RPE")
    let distanceCell := cellSet.cells.find? (fun c => c.cellType == "DISTANCE")
    let durationCell := cellSet.cells.find? (fun c => c.cellType == "DURATION")
    some
      { set :=
          { weightKg := (truthyValue weightCell).map parseFloat
            reps := (truthyValue repsCell).map parseInt
            rpe := (truthyValue rpeCell).map parseFloat
            distance := (truthyValue distanceCell).map parseFloat
            duration := durationCell.bind Cell.value }
        completed := cellSet.isCompleted }

/-! ### Log Transformer (transformLogs in src/api/client.ts) -/

/-- The id→name lookup map: a JS `Map<string, string>` as an insertion-ordered
association list with unique keys. -/
abbrev MeasMap : Type := List (String × String)

/-- JS `Map.prototype.get`. -/
def mapGet (m : MeasMap) (k : String) : Option String :=
  (m.find? (fun p => p.1 == k)).map Prod.snd

/-- JS `Map.prototype.set`: overwrite in place on key collision, append
otherwise. -/
def mapSet (m : MeasMap) (k v : String) : MeasMap :=
  let l : List (String × String) := m
  if l.any (fun p => p.1 == k) then l.map (fun p => if p.1 == k then (k, v) else p)
  else l ++ [(k, v)]

/-- Maps one cell-set-group to an exercise: measurement id from the last
path segment of the measurement hyperlink, name through the lookup map with
the "Unknown" fallback, cell-sets decoded and partitioned on the completed
flag (`!== false` versus `=== false`). -/
def groupToExercise (measurementMap : MeasMap) (group : CellSetGroup) : WorkoutExercise :=
  let measurementHref := ((group._links.bind GroupLinks.measurement).bind MeasurementLink.href).getD ""
  let measurementId := ((jsSplitChar measurementHref '/').getLast?).getD ""
  let name := (mapGet measurementMap measurementId).getD "Unknown"
  let parsed := group.cellSets.filterMap parseSet
  { name
    completedSets := (parsed.filter (fun p => p.completed != some false)).map ParsedSet.set
    skippedSets := (parsed.filter (fun p => p.completed == some false)).map ParsedSet.set }

/-- The per-log body of `transformLogs`: name from `en` falling back to
`custom`, optional fields passed through, exercises from the cell-set-groups
with zero-set exercises dropped. -/
def logToWorkout (measurementMap : MeasMap) (log : RawLog) : Workout :=
  { id := log.id
    name := (log.name.bind LocalizedName.en).or (log.name.bind LocalizedName.custom)
    startDate := log.startDate
    endDate := log.endDate
    timezone := log.timezoneId
    exercises :=
      (((log._embedded.bind LogEmbedded.cellSetGroup).getD []).map
          (groupToExercise measurementMap)).filter
        (fun e => decide (0 < e.completedSets.length + e.skippedSets.length)) }

/-- The Log Transformer, `transformLogs`: keep only `WORKOUT`/`LOG` logs, map
each to a `Workout`, and reverse the final list. -/
def transformLogs (logs : List RawLog) (measurementMap : MeasMap) : List Workout :=
  ((logs.filter (fun log => log.logType == some "WORKOUT" || log.logType == some "LOG")).map
      (logToWorkout measurementMap)).reverse

-- Sanity checks mirroring the repository's unit tests.
example :
    parseSet { cells := [{ cellType := "REST_TIMER", value := some "60" }] } = none := by decide

example :
    parseSet
        { cells :=
            [{ cellType := "BARBELL_WEIGHT", value := some "100" },
             { cellType := "REPS", value := some "5" }]
          isCompleted := some true } =
      some
        { set := { weightKg := some (.val 100 0), reps := some (.val 5 0) }
          completed := some true } := by decide

example :
    transformLogs
        [{ id := "log-1", logType := some "WORKOUT"
           _embedded := some
             { cellSetGroup := some
                 [{ _links := some { measurement := some { href := some "/api/measurements/abc123" } }
                    cellSets :=
                      [{ cells :=
                           [{ cellType := "BARBELL_WEIGHT", value := some "100" },
                            { cellType := "REPS", value := some "5" }]
                         isCompleted := some true }] }] } }]
        [("abc123", "Squat (Barbell)")] =
      [{ id := "log-1"
         exercises :=
           [{ name := "Squat (Barbell)"
              completedSets := [{ weightKg := some (.val 100 0), reps := some (.val 5 0) }]
              skippedSets := [] }] }] := by decide

example :
    transformLogs [{ id := "log-1", logType := some "MEASUREMENT" }] [] = [] := by decide

/-! ### CSV serializer (toCSV in src/transform.ts) -/

/-- Renders an optional numeric field, empty string for `null`
(`set.weightKg ?? ""` under JS array-join stringification). -/
def optNumCsv : Option JsNum → String
  | some n => jsNumToString n
  | none => ""

/-- The ten fields of one CSV data row, in column order; both name columns
are wrapped in double quotes with embedded quotes doubled, unconditionally. -/
def setRowFields (workout : Workout) (exercise : WorkoutExercise) (i : Nat)
    (s : WorkoutSet) (status : String) : List String :=
  [workout.startDate.getD "",
   "\"" ++ jsQuoteEscape (workout.name.getD "") ++ "\"",
   "\"" ++ jsQuoteEscape exercise.name ++ "\"",
   toString (i + 1),
   optNumCsv s.weightKg,
   optNumCsv s.reps,
   optNumCsv s.rpe,
   optNumCsv s.distance,
   s.duration.getD "",
   status]

/-- All data rows of one exercise: completed sets (tagged "completed") before
skipped sets (tagged "skipped"), 0-based enumeration printed 1-indexed. -/
def exerciseRows (workout : Workout) (exercise : WorkoutExercise) : List String :=
  ((exercise.completedSets.map (fun s => (s, "completed")) ++
      exercise.skippedSets.map (fun s => (s, "skipped"))).enum).map
    (fun p => String.intercalate "," (setRowFields workout exercise p.1 p.2.1 p.2.2))

/-- The fixed CSV header row. -/
def csvHeader : String :=
  "date,workoutName,exerciseName,setNumber,weightKg,reps,rpe,distance,duration,status"

/-- The CSV serializer, `toCSV`. -/
def toCSV (data : ExportData) : String :=
  String.intercalate "\n"
    (csvHeader :: data.workouts.flatMap (fun w => w.exercises.flatMap (exerciseRows w)))

example :
    toCSV
        { exportedAt := "2026-02-17T00:00:00Z", totalWorkouts := 1
          workouts :=
            [{ id := "w1", name := some "Push Day", startDate := some "2026-02-15T10:00:00Z"
               exercises :=
                 [{ name := "Bench Press (Barbell)"
                    completedSets := [{ weightKg := some (.val 80 0), reps := some (.val 5 0) }]
                    skippedSets := [] }] }] } =
      csvHeader ++
        "\n2026-02-15T10:00:00Z,\"Push Day\",\"Bench Press (Barbell)\",1,80,5,,,,completed" := by
  decide

/-! ### Error model (src/api/client.ts) -/

/-- The `cause` field of an error (typed `unknown` in the source).  The only
causes produced by the embedded code are `StrongApiError` values constructed
without a cause of their own, so a cause is recorded as that error's message
and optional HTTP status. -/
inductive ErrCause where
  | apiError (message : String) (status : Option Nat)
deriving DecidableEq

/-- `StrongApiError`: a message, an optional HTTP status, and an optional
cause (as attached by the `catchAll` wrappers). -/
structure StrongApiError where
  message : String
  status : Option Nat := none
  cause : Option ErrCause := none
deriving DecidableEq

/-- Outcome of a fuel-bounded pagination run: success, a typed failure, or
`diverge` when the fuel ran out (a JS run still inside the loop). -/
inductive FetchResult (α : Type) where
  | ok (value : α)
  | err (e : StrongApiError)
  | diverge
deriving DecidableEq

/-! ### Log Fetcher (fetchWorkoutLogs in src/api/client.ts)

The HTTP layer is a response oracle keyed by the continuation token sent in
the request; each response carries its status, body text, the decoded
`_embedded.log` batch and the decoded `_links.continuation.href` field. -/

/-- One page response of the user-log feed. -/
structure LogPage where
  status : Nat
  text : String
  embeddedLog : Option (List RawLog) := none
  continuationHref : Option String := none
deriving DecidableEq

/-- Models `new URL(href, backend).searchParams.get("continuation")` for the
hyperlinks the backend produces (no percent-decoding). -/
def getContinuationParam (href : String) : Option String :=
  match jsSplitChar href '?' with
  | _ :: query :: _ =>
    ((jsSplitChar query '&').filterMap fun kv =>
        match jsSplitChar kv '=' with
        | [k, v] => if k = "continuation" then some v else none
        | _ => none).head?
  | _ => none

/-- The continuation-token pagination loop of `fetchWorkoutLogs`: a non-200
status fails hard with the status and body text; otherwise the batch is
accumulated and the loop ends on a missing/empty next link, an empty batch,
or a missing/empty extracted continuation token. -/
def fetchLogsLoop (oracle : String → LogPage) :
    Nat → String → List RawLog → FetchResult (List RawLog)
  | 0, _, _ => .diverge
  | fuel + 1, continuation, acc =>
    let r := oracle continuation
    if r.status ≠ 200 then
      .err { message := "Failed to fetch logs: " ++ toString r.status ++ " - " ++ r.text
             status := some r.status }
    else
      let batch := r.embeddedLog.getD []
      let logs := acc ++ batch
      -- `!nextHref` in JS is true for a missing href and for the empty string,
      -- so both cases are folded into one emptiness test here.
      let nextHref := r.continuationHref.getD ""
      if nextHref = "" ∨ batch = [] then .ok logs
      else
        let next := (getContinuationParam nextHref).getD ""
        if next = "" then .ok logs
        else fetchLogsLoop oracle fuel next logs

/-- `fetchWorkoutLogs`: the loop above, with its `catchAll` wrapper that
replaces any failure by a fresh `StrongApiError` whose message is
"Failed to fetch workout logs" and whose cause is the original error. -/
def fetchWorkoutLogs (oracle : String → LogPage) (fuel : Nat) : FetchResult (List RawLog) :=
  match fetchLogsLoop oracle fuel "" [] with
  | .err e => .err { message := "Failed to fetch workout logs"
                     cause := some (.apiError e.message e.status) }
  | r => r

/-! ### Measurement Lookup Builder (fetchMeasurements in src/api/client.ts) -/

/-- One entry of a measurement catalog page. -/
structure MeasEntry where
  id : String
  name : Option LocalizedName := none
deriving DecidableEq

/-- One page response of a measurement catalog endpoint: status, the decoded
`_embedded.measurement` array, and the truthiness of `_links.next`. -/
structure MeasPage where
  status : Nat
  measurement : Option (List MeasEntry) := none
  hasNext : Bool := false
deriving DecidableEq

/-- The two catalog endpoints: `api/measurements` and
`api/users/{userId}/measurements`. -/
inductive MeasEndpoint where
  | global
  | user
deriving DecidableEq

/-- Display name of a catalog entry: `name?.custom ?? name?.en ?? id`. -/
def measEntryName (m : MeasEntry) : String :=
  ((m.name.bind LocalizedName.custom).or (m.name.bind LocalizedName.en)).getD m.id

/-- The numbered-page loop `fetchFromEndpoint`: pages 0, 1, 2, …; a non-200
status breaks the loop silently; each page's entries are inserted by `set`
semantics; the loop also ends when the page lacks a next link or is empty. -/
def fetchFromEndpoint (resp : Nat → MeasPage) : Nat → Nat → MeasMap → MeasMap
  | 0, _, map => map
  | fuel + 1, page, map =>
    let r := resp page
    if r.status ≠ 200 then map
    else
      let measurements := r.measurement.getD []
      let map := measurements.foldl (fun m e => mapSet m e.id (measEntryName e)) map
      if ¬r.hasNext ∨ measurements = [] then map
      else fetchFromEndpoint resp fuel (page + 1) map

/-- `fetchMeasurements`: the global catalog first, then the user-scoped
catalog over the same map, inside the `catchAll` wrapper.  With well-typed
responses (the oracle) neither endpoint can fail, so the result is always
`Except.ok`. -/
def fetchMeasurements (resp : MeasEndpoint → Nat → MeasPage) (fuel : Nat) :
    Except StrongApiError MeasMap :=
  .ok (fetchFromEndpoint (resp .user) fuel 0 (fetchFromEndpoint (resp .global) fuel 0 []))

example :
    fetchWorkoutLogs (fun _ => { status := 500, text := "oops" }) 3 =
      .err { message := "Failed to fetch workout logs"
             cause := some (.apiError "Failed to fetch logs: 500 - oops" (some 500)) } := by decide

example :
    fetchMeasurements
        (fun ep _ =>
          match ep with
          | .global =>
            { status := 200
              measurement := some [{ id := "a", name := some { en := some "Alpha" } }] }
          | .user => { status := 500 }) 3 =
      .ok [("a", "Alpha")] := rfl

/-! ### Helper lemmas -/

theorem find?_congrFun {α : Type} (p q : α → Bool) (h : ∀ a, p a = q a) :
    ∀ l : List α, l.find? p = l.find? q := by
  intro l
  induction l with
  | nil => rfl
  | cons a t ih => simp only [List.find?, h a, ih]

theorem filter_congrFun {α : Type} (p q : α → Bool) (h : ∀ a, p a = q a) :
    ∀ l : List α, l.filter p = l.filter q := by
  intro l
  induction l with
  | nil => rfl
  | cons a t ih => simp only [List.filter, h a, ih]

theorem map_congrFun {α β : Type} (f g : α → β) (h : ∀ a, f a = g a) :
    ∀ l : List α, l.map f = l.map g := by
  intro l
  induction l with
  | nil => rfl
  | cons a t ih => simp only [List.map, h a, ih]

theorem contains_singleton (x ct : String) : ([x] : List String).contains ct = (ct == x) := by
  cases h : ct == x <;> simp [List.contains, List.elem, h]

/-- The marker condition of the Cell Decoder, as a proposition: the cell-type
set contains a rest-timer or a note marker. -/
def hasMarker (cellSet : CellSet) : Prop :=
  "REST_TIMER" ∈ cellSet.cells.map Cell.cellType ∨ "NOTE" ∈ cellSet.cells.map Cell.cellType

instance (cellSet : CellSet) : Decidable (hasMarker cellSet) :=
  inferInstanceAs (Decidable (_ ∈ _ ∨ _ ∈ _))

theorem hasMarker_bool (cs : CellSet) :
    ((cs.cells.map Cell.cellType).contains "REST_TIMER" ||
        (cs.cells.map Cell.cellType).contains "NOTE") = true ↔ hasMarker cs := by
  simp [hasMarker, List.contains]

/-- The field-extraction policy as the specification words it: take the first
cell whose type is in the accepted set; if it exists and its value is a
non-empty string, numerically parse that value, otherwise the field is
absent. -/
def specNumField (cells : List Cell) (accepted : List String) (parse : String → JsNum) :
    Option JsNum :=
  match cells.find? (fun c => accepted.contains c.cellType) with
  | some c =>
    match c.value with
    | some v => if v = "" then none else some (parse v)
    | none => none
  | none => none

theorem truthy_spec (cells : List Cell) (accepted : List String) (parse : String → JsNum) :
    (truthyValue (cells.find? (fun c => accepted.contains c.cellType))).map parse =
      specNumField cells accepted parse := by
  simp only [specNumField, truthyValue]
  cases cells.find? (fun c => accepted.contains c.cellType) with
  | none => rfl
  | some c =>
    obtain ⟨ct, cv⟩ := c
    cases cv with
    | none => rfl
    | some v =>
      by_cases he : v = "" <;> simp [he]

theorem parseSet_of_not_marker (cs : CellSet) (h : ¬ hasMarker cs) :
    parseSet cs =
      some
        { set :=
            { weightKg :=
                (truthyValue (cs.cells.find? (fun c => WEIGHT_CELL_TYPES.contains c.cellType))).map
                  parseFloat
              reps := (truthyValue (cs.cells.find? (fun c => c.cellType == "REPS"))).map parseInt
              rpe := (truthyValue (cs.cells.find? (fun c => c.cellType == "RPE"))).map parseFloat
              distance :=
                (truthyValue (cs.cells.find? (fun c => c.cellType == "DISTANCE"))).map parseFloat
              duration := (cs.cells.find? (fun c => c.cellType == "DURATION")).bind Cell.value }
          completed := cs.isCompleted } := by
  have hb :
      ((cs.cells.map Cell.cellType).contains "REST_TIMER" ||
          (cs.cells.map Cell.cellType).contains "NOTE") = false := by
    rw [Bool.eq_false_iff]
    intro hh
    exact h ((hasMarker_bool cs).mp hh)
  simp only [parseSet, hb, Bool.false_eq_true, if_false]

/-! ### Claim C5 -/

/-- Claim C5: for every CellSet whose cell types include no rest-timer and no
note marker, the Cell Decoder succeeds (is total, producing a WorkoutSet),
and each numeric field — weightKg, reps, rpe, distance — equals the value
numerically parsed from the first matching cell's non-empty value, or is
absent; never any other value. -/
theorem parseSet_fields_first_match_or_absent (cs : CellSet) (h : ¬ hasMarker cs) :
    ∃ p, parseSet cs = some p ∧
      p.set.weightKg = specNumField cs.cells WEIGHT_CELL_TYPES parseFloat ∧
      p.set.reps = specNumField cs.cells ["REPS"] parseInt ∧
      p.set.rpe = specNumField cs.cells ["RPE"] parseFloat ∧
      p.set.distance = specNumField cs.cells ["DISTANCE"] parseFloat := by
  refine ⟨_, parseSet_of_not_marker cs h, ?_, ?_, ?_, ?_⟩
  · exact truthy_spec cs.cells WEIGHT_CELL_TYPES parseFloat
  · rw [show cs.cells.find? (fun c => c.cellType == "REPS") =
        cs.cells.find? (fun c => (["REPS"] : List String).contains c.cellType) from
      find?_congrFun _ _ (fun c => (contains_singleton "REPS" c.cellType).symm) cs.cells]
    exact truthy_spec cs.cells ["REPS"] parseInt
  · rw [show cs.cells.find? (fun c => c.cellType == "RPE") =
        cs.cells.find? (fun c => (["RPE"] : List String).contains c.cellType) from
      find?_congrFun _ _ (fun c => (contains_singleton "RPE" c.cellType).symm) cs.cells]
    exact truthy_spec cs.cells ["RPE"] parseFloat
  · rw [show cs.cells.find? (fun c => c.cellType == "DISTANCE") =
        cs.cells.find? (fun c => (["DISTANCE"] : List String).contains c.cellType) from
      find?_congrFun _ _ (fun c => (contains_singleton "DISTANCE" c.cellType).symm) cs.cells]
    exact truthy_spec cs.cells ["DISTANCE"] parseFloat

/-- A concrete marker-free cell-set (from the repository's parseSet test). -/
def benchCellSet : CellSet :=
  { cells :=
      [{ cellType := "BARBELL_WEIGHT", value := some "100" },
       { cellType := "REPS", value := some "5" }]
    isCompleted := some true }

/-- Witness for C5 at a concrete marker-free cell-set. -/
theorem parseSet_fields_first_match_or_absent_witness :
    ∃ p, parseSet benchCellSet = some p ∧
      p.set.weightKg = specNumField benchCellSet.cells WEIGHT_CELL_TYPES parseFloat ∧
      p.set.reps = specNumField benchCellSet.cells ["REPS"] parseInt ∧
      p.set.rpe = specNumField benchCellSet.cells ["RPE"] parseFloat ∧
      p.set.distance = specNumField benchCellSet.cells ["DISTANCE"] parseFloat :=
  parseSet_fields_first_match_or_absent benchCellSet (by decide)

/-! ### Claim C6 -/

/-- Claim C6: a CellSet whose cell-type set contains a rest-timer or note
marker decodes to "no set" regardless of any other cells; every other
CellSet decodes to a WorkoutSet with the completed flag taken verbatim from
the CellSet (true stays true, false stays false, absent stays absent). -/
theorem parseSet_marker_none_completed_verbatim (cs : CellSet) :
    (hasMarker cs → parseSet cs = none) ∧
    (¬ hasMarker cs → ∃ p, parseSet cs = some p ∧ p.completed = cs.isCompleted) := by
  constructor
  · intro h
    have hb :
        ((cs.cells.map Cell.cellType).contains "REST_TIMER" ||
            (cs.cells.map Cell.cellType).contains "NOTE") = true :=
      (hasMarker_bool cs).mpr h
    simp only [parseSet, hb, if_true]
  · intro h
    exact ⟨_, parseSet_of_not_marker cs h, rfl⟩

/-- A rest-timer cell-set that also carries a reps cell. -/
def restTimerCellSet : CellSet :=
  { cells :=
      [{ cellType := "REST_TIMER", value := some "60" },
       { cellType := "REPS", value := some "5" }] }

/-- A marker-free reps-only cell-set with the given completed flag. -/
def repsCellSet (flag : Option Bool) : CellSet :=
  { cells := [{ cellType := "REPS", value := some "5" }], isCompleted := flag }

/-- Witness for C6: a rest-timer cell-set with another cell present decodes
to "no set"; marker-free cell-sets keep their completed flag verbatim, for
each of the three flag states. -/
theorem parseSet_marker_none_completed_verbatim_witness :
    parseSet restTimerCellSet = none ∧
    (∃ p, parseSet (repsCellSet (some false)) = some p ∧ p.completed = some false) ∧
    (∃ p, parseSet (repsCellSet (some true)) = some p ∧ p.completed = some true) ∧
    (∃ p, parseSet (repsCellSet none) = some p ∧ p.completed = none) :=
  ⟨(parseSet_marker_none_completed_verbatim restTimerCellSet).1 (by decide),
   (parseSet_marker_none_completed_verbatim (repsCellSet (some false))).2 (by decide),
   (parseSet_marker_none_completed_verbatim (repsCellSet (some true))).2 (by decide),
   (parseSet_marker_none_completed_verbatim (repsCellSet none)).2 (by decide)⟩

/-! ### Transformer lemmas -/

theorem keepBool_eq_decide (l : RawLog) :
    (l.logType == some "WORKOUT" || l.logType == some "LOG") =
      decide (l.logType = some "WORKOUT" ∨ l.logType = some "LOG") := by
  by_cases h1 : l.logType = some "WORKOUT" <;> by_cases h2 : l.logType = some "LOG" <;>
    simp [h1, h2]

theorem mem_transformLogs {logs : List RawLog} {m : MeasMap} {w : Workout} :
    w ∈ transformLogs logs m ↔
      ∃ l, l ∈ logs ∧ (l.logType = some "WORKOUT" ∨ l.logType = some "LOG") ∧
        logToWorkout m l = w := by
  simp [transformLogs, Bool.or_eq_true, beq_iff_eq, and_assoc]

/-! ### Claim C7 -/

/-- Claim C7: the transformer's output contains exactly the input logs whose
type tag is WORKOUT or LOG (every output workout comes from such a log, and
the id sequence is exactly the filtered ids), in exactly the reverse of
their input order. -/
theorem transformLogs_kept_logs_reversed (logs : List RawLog) (m : MeasMap) :
    (transformLogs logs m).map Workout.id =
      ((logs.filter fun l =>
          decide (l.logType = some "WORKOUT" ∨ l.logType = some "LOG")).map RawLog.id).reverse ∧
    ∀ w ∈ transformLogs logs m,
      ∃ l, l ∈ logs ∧ (l.logType = some "WORKOUT" ∨ l.logType = some "LOG") ∧
        logToWorkout m l = w := by
  constructor
  · unfold transformLogs
    rw [List.map_reverse]
    congr 1
    rw [List.map_map, filter_congrFun _ _ keepBool_eq_decide logs]
    exact map_congrFun _ _ (fun l => rfl) _
  · intro w hw
    exact mem_transformLogs.mp hw

/-- Concrete logs: one discarded type tag between two kept ones. -/
def sampleLogs : List RawLog :=
  [{ id := "skip-1", logType := some "MEASUREMENT" },
   { id := "keep-1", logType := some "WORKOUT" },
   { id := "keep-2", logType := some "LOG" }]

/-- Witness for C7 at the concrete log list. -/
theorem transformLogs_kept_logs_reversed_witness :
    (transformLogs sampleLogs []).map Workout.id =
      ((sampleLogs.filter fun l =>
          decide (l.logType = some "WORKOUT" ∨ l.logType = some "LOG")).map RawLog.id).reverse ∧
    ∃ l, l ∈ sampleLogs ∧ (l.logType = some "WORKOUT" ∨ l.logType = some "LOG") ∧
      logToWorkout [] l = logToWorkout [] { id := "keep-1", logType := some "WORKOUT" } :=
  ⟨(transformLogs_kept_logs_reversed sampleLogs []).1,
   (transformLogs_kept_logs_reversed sampleLogs []).2
     (logToWorkout [] { id := "keep-1", logType := some "WORKOUT" }) (by decide)⟩

/-! ### Claim C8 -/

/-- Claim C8: for every cell-set-group, the resulting exercise's
completedSets are exactly the decoded (non-"no set") cell-sets whose
completed flag is true or absent, and its skippedSets exactly those whose
flag is exactly false, each taken in the group's original relative order
(as a filter of the decoded sequence). -/
theorem groupToExercise_partition_order (m : MeasMap) (group : CellSetGroup) :
    (groupToExercise m group).completedSets =
      (((group.cellSets.filterMap parseSet).filter fun p =>
          decide (p.completed = some true ∨ p.completed = none)).map ParsedSet.set) ∧
    (groupToExercise m group).skippedSets =
      (((group.cellSets.filterMap parseSet).filter fun p =>
          decide (p.completed = some false)).map ParsedSet.set) := by
  constructor
  · simp only [groupToExercise]
    congr 1
    apply filter_congrFun
    intro p
    obtain ⟨ps, pc⟩ := p
    cases pc with
    | none => rfl
    | some b => cases b <;> rfl
  · simp only [groupToExercise]
    congr 1
    apply filter_congrFun
    intro p
    obtain ⟨ps, pc⟩ := p
    cases pc with
    | none => rfl
    | some b => cases b <;> rfl

/-! ### Claim C9 -/

/-- Claim C9: every exercise of every workout produced by the transformer
has at least one set in completedSets or skippedSets (zero-set exercises are
dropped from their parent workout). -/
theorem transformLogs_exercise_has_set (logs : List RawLog) (m : MeasMap) :
    ∀ w ∈ transformLogs logs m, ∀ e ∈ w.exercises,
      e.completedSets ≠ [] ∨ e.skippedSets ≠ [] := by
  intro w hw e he
  obtain ⟨l, _, _, hlw⟩ := mem_transformLogs.mp hw
  subst hlw
  simp only [logToWorkout] at he
  have hpos : 0 < e.completedSets.length + e.skippedSets.length :=
    of_decide_eq_true (List.mem_filter.mp he).2
  by_cases hc : e.completedSets = []
  · right
    intro hs
    rw [hc, hs] at hpos
    simp at hpos
  · left
    exact hc

/-- The concrete cell-set-group / log / lookup map of the repository's basic
transformLogs test. -/
def squatGroup : CellSetGroup :=
  { _links := some { measurement := some { href := some "/api/measurements/abc123" } }
    cellSets := [benchCellSet] }

def workoutLog : RawLog :=
  { id := "log-1", logType := some "WORKOUT"
    _embedded := some { cellSetGroup := some [squatGroup] } }

def squatMap : MeasMap := [("abc123", "Squat (Barbell)")]

/-- Witness for C9 at the concrete workout log. -/
theorem transformLogs_exercise_has_set_witness :
    (groupToExercise squatMap squatGroup).completedSets ≠ [] ∨
      (groupToExercise squatMap squatGroup).skippedSets ≠ [] :=
  transformLogs_exercise_has_set [workoutLog] squatMap
    (logToWorkout squatMap workoutLog) (by decide)
    (groupToExercise squatMap squatGroup) (by decide)

/-! ### Claim C10 -/

/-- Claim C10: every log with type tag WORKOUT or LOG yields a Workout in
the transformer output — the output length equals the number of kept logs,
and the workout of each kept log is a member of the output — even when its
exercise list is empty; workouts are never dropped for having no
exercises. -/
theorem transformLogs_keeps_empty_exercise_workouts (logs : List RawLog) (m : MeasMap) :
    (transformLogs logs m).length =
      (logs.filter fun l =>
        decide (l.logType = some "WORKOUT" ∨ l.logType = some "LOG")).length ∧
    ∀ l ∈ logs, (l.logType = some "WORKOUT" ∨ l.logType = some "LOG") →
      logToWorkout m l ∈ transformLogs logs m := by
  constructor
  · unfold transformLogs
    rw [List.length_reverse, List.length_map, filter_congrFun _ _ keepBool_eq_decide logs]
  · intro l hl hk
    exact mem_transformLogs.mpr ⟨l, hl, hk, rfl⟩

/-- A kept log with no cell-set-groups at all. -/
def emptyLog : RawLog := { id := "empty-1", logType := some "WORKOUT" }

/-- Witness for C10: a WORKOUT log without cell-set-groups still yields its
workout in the output, and that workout has an empty exercises sequence. -/
theorem transformLogs_keeps_empty_exercise_workouts_witness :
    (transformLogs [emptyLog] []).length =
      (([emptyLog] : List RawLog).filter fun l =>
        decide (l.logType = some "WORKOUT" ∨ l.logType = some "LOG")).length ∧
    logToWorkout [] emptyLog ∈ transformLogs [emptyLog] [] ∧
    (logToWorkout [] emptyLog).exercises = [] :=
  ⟨(transformLogs_keeps_empty_exercise_workouts [emptyLog] []).1,
   (transformLogs_keeps_empty_exercise_workouts [emptyLog] []).2 emptyLog (by decide)
     (Or.inl rfl),
   rfl⟩

/-! ### Claim C1 -/

/-- Claim C1, corrected: for a log carrying both name fields, the transformer
takes the primary (`en`) field, not the custom override; the custom field is
used only when the primary is absent, and the name is absent only when both
are (or the whole name object is). -/
theorem transformLogs_name_primary_over_custom (m : MeasMap) (log : RawLog) :
    (∀ n p, log.name = some n → n.en = some p → (logToWorkout m log).name = some p) ∧
    (∀ n, log.name = some n → n.en = none → (logToWorkout m log).name = n.custom) ∧
    (log.name = none → (logToWorkout m log).name = none) ∧
    ((log.logType = some "WORKOUT" ∨ log.logType = some "LOG") →
      transformLogs [log] m = [logToWorkout m log]) := by
  refine ⟨?_, ?_, ?_, ?_⟩
  · intro n p hn hp
    simp [logToWorkout, hn, hp, Option.or]
  · intro n hn hp
    simp [logToWorkout, hn, hp, Option.or]
  · intro hn
    simp [logToWorkout, hn, Option.or]
  · intro hk
    have hb : (log.logType == some "WORKOUT" || log.logType == some "LOG") = true := by
      rcases hk with h | h <;> simp [h]
    simp [transformLogs, hb]

/-- A raw log carrying both a primary and a custom-override display name. -/
def bothNamesLog : RawLog :=
  { id := "log-1", name := some { en := some "Primary", custom := some "Custom" }
    logType := some "WORKOUT" }

/-- Counterexample to C1 as stated: with both name fields present, the
produced workout's display name is the primary field "Primary", not the
custom override "Custom". -/
theorem transformLogs_name_custom_loses_cex :
    (transformLogs [bothNamesLog] []).map Workout.name = [some "Primary"] ∧
    (some "Primary" : Option String) ≠ some "Custom" :=
  ⟨by decide, by decide⟩

/-- Witness for the amended C1 at the concrete log with both fields. -/
theorem transformLogs_name_primary_over_custom_witness :
    (logToWorkout [] bothNamesLog).name = some "Primary" ∧
    transformLogs [bothNamesLog] [] = [logToWorkout [] bothNamesLog] :=
  ⟨(transformLogs_name_primary_over_custom [] bothNamesLog).1 _ "Primary" rfl rfl,
   (transformLogs_name_primary_over_custom [] bothNamesLog).2.2.2 (Or.inl rfl)⟩

/-! ### Claim C2 -/

/-- Any error produced by the pagination loop itself comes from some page
whose status was not 200, and carries that page's status and body text. -/
theorem fetchLogsLoop_err_shape (oracle : String → LogPage) :
    ∀ (fuel : Nat) (cont : String) (acc : List RawLog) (e : StrongApiError),
      fetchLogsLoop oracle fuel cont acc = .err e →
      ∃ tok, (oracle tok).status ≠ 200 ∧
        e = { message := "Failed to fetch logs: " ++ toString (oracle tok).status ++ " - " ++
                (oracle tok).text
              status := some (oracle tok).status
              cause := none } := by
  intro fuel
  induction fuel with
  | zero =>
    intro cont acc e h
    simp [fetchLogsLoop] at h
  | succ n ih =>
    intro cont acc e h
    rw [fetchLogsLoop] at h
    by_cases hs : (oracle cont).status ≠ 200
    · rw [if_pos hs] at h
      exact ⟨cont, hs, (FetchResult.err.inj h).symm⟩
    · rw [if_neg hs] at h
      dsimp only at h
      by_cases h1 :
          (oracle cont).continuationHref.getD "" = "" ∨ (oracle cont).embeddedLog.getD [] = []
      · rw [if_pos h1] at h
        simp at h
      · rw [if_neg h1] at h
        by_cases h2 : (getContinuationParam ((oracle cont).continuationHref.getD "")).getD "" = ""
        · rw [if_pos h2] at h
          simp at h
        · rw [if_neg h2] at h
          exact ih _ _ _ h

/-- Claim C2, corrected: when a run of the Log Fetcher fails, the surfaced
`StrongApiError` has the fixed message "Failed to fetch workout logs" and no
status of its own; the failing page's HTTP status code and response body
text are carried only by the error recorded as its cause. -/
theorem fetchWorkoutLogs_err_wrapped (oracle : String → LogPage) (fuel : Nat)
    (e : StrongApiError) (h : fetchWorkoutLogs oracle fuel = .err e) :
    e.message = "Failed to fetch workout logs" ∧ e.status = none ∧
    ∃ tok, (oracle tok).status ≠ 200 ∧
      e.cause = some (.apiError
        ("Failed to fetch logs: " ++ toString (oracle tok).status ++ " - " ++ (oracle tok).text)
        (some (oracle tok).status)) := by
  unfold fetchWorkoutLogs at h
  cases hl : fetchLogsLoop oracle fuel "" [] with
  | ok v => rw [hl] at h; simp at h
  | diverge => rw [hl] at h; simp at h
  | err e0 =>
    rw [hl] at h
    obtain ⟨tok, hs, he0⟩ := fetchLogsLoop_err_shape oracle fuel "" [] e0 hl
    have he : e = { message := "Failed to fetch workout logs", status := none
                    cause := some (.apiError e0.message e0.status) } :=
      (FetchResult.err.inj h).symm
    subst he0
    subst he
    exact ⟨rfl, rfl, tok, hs, rfl⟩

/-- An oracle whose every page answers HTTP 500 with body "oops". -/
def failingOracle : String → LogPage := fun _ => { status := 500, text := "oops" }

/-- The error surfaced by a failing run of the Log Fetcher against
`failingOracle`. -/
def wrappedLogsError : StrongApiError :=
  { message := "Failed to fetch workout logs"
    cause := some (.apiError "Failed to fetch logs: 500 - oops" (some 500)) }

/-- Counterexample to C2 as stated: the fetch against a page answering
status 500 with body "oops" fails with an error whose own status field is
absent (not 500) and whose own message is the fixed wrapper text (carrying
neither the status code nor the body); status and body survive only inside
the cause. -/
theorem fetchWorkoutLogs_status_not_carried_cex :
    fetchWorkoutLogs failingOracle 1 = .err wrappedLogsError ∧
    wrappedLogsError.status = none ∧
    wrappedLogsError.status ≠ some 500 ∧
    wrappedLogsError.message = "Failed to fetch workout logs" ∧
    wrappedLogsError.message ≠ "Failed to fetch logs: 500 - oops" :=
  ⟨by decide, by decide, by decide, by decide, by decide⟩

/-- Witness for the corrected C2 at the concrete failing oracle. -/
theorem fetchWorkoutLogs_err_wrapped_witness :
    wrappedLogsError.message = "Failed to fetch workout logs" ∧
    wrappedLogsError.status = none ∧
    ∃ tok, (failingOracle tok).status ≠ 200 ∧
      wrappedLogsError.cause = some (.apiError
        ("Failed to fetch logs: " ++ toString (failingOracle tok).status ++ " - " ++
          (failingOracle tok).text)
        (some (failingOracle tok).status)) :=
  fetchWorkoutLogs_err_wrapped failingOracle 1 wrappedLogsError (by decide)

/-! ### Claim C3 -/

theorem replaceAllChar_eq_flatMap (target : Char) (repl : List Char) :
    ∀ cs : List Char,
      replaceAllChar target repl cs = cs.flatMap (fun c => if c = target then repl else [c]) := by
  intro cs
  induction cs with
  | nil => rfl
  | cons c t ih => simp [replaceAllChar, List.flatMap_cons, ih]

/-- Claim C3, corrected: in every CSV data row the workout-name and
exercise-name fields are rendered double-quoted unconditionally — whether or
not the name contains a comma or quote — with each embedded quote character
doubled (an absent workout name renders as an empty quoted string). -/
theorem setRowFields_names_always_quoted (workout : Workout) (exercise : WorkoutExercise)
    (i : Nat) (s : WorkoutSet) (status : String) :
    (setRowFields workout exercise i s status).get? 1 =
      some ("\"" ++ jsQuoteEscape (workout.name.getD "") ++ "\"") ∧
    (setRowFields workout exercise i s status).get? 2 =
      some ("\"" ++ jsQuoteEscape exercise.name ++ "\"") ∧
    (jsQuoteEscape (workout.name.getD "")).data =
      (workout.name.getD "").data.flatMap (fun c => if c = '\"' then ['\"', '\"'] else [c]) ∧
    (jsQuoteEscape exercise.name).data =
      exercise.name.data.flatMap (fun c => if c = '\"' then ['\"', '\"'] else [c]) :=
  ⟨rfl, rfl, replaceAllChar_eq_flatMap '\"' ['\"', '\"'] (workout.name.getD "").data,
   replaceAllChar_eq_flatMap '\"' ['\"', '\"'] exercise.name.data⟩

/-- A one-set export whose workout and exercise names contain neither a
comma nor a quote character. -/
def plainNameData : ExportData :=
  { exportedAt := "2026-02-17T00:00:00Z", totalWorkouts := 1
    workouts :=
      [{ id := "w1", name := some "PushDay", startDate := some "2026-01-15T10:00:00Z"
         exercises :=
           [{ name := "BenchPress", completedSets := [{}], skippedSets := [] }] }] }

/-- Counterexample to C3 as stated: "PushDay" and "BenchPress" contain no
comma and no quote, yet the serializer renders both double-quoted (the
second and third fields of the data row), contradicting "only when". -/
theorem toCSV_quotes_plain_name_cex :
    toCSV plainNameData =
      csvHeader ++ "\n2026-01-15T10:00:00Z,\"PushDay\",\"BenchPress\",1,,,,,,completed" ∧
    ("PushDay".data.all fun c => !(c == ',' || c == '\"')) = true ∧
    ("BenchPress".data.all fun c => !(c == ',' || c == '\"')) = true ∧
    (jsSplitChar "2026-01-15T10:00:00Z,\"PushDay\",\"BenchPress\",1,,,,,,completed" ',').get? 1 =
      some "\"PushDay\"" ∧
    (some "\"PushDay\"" : Option String) ≠ some "PushDay" :=
  ⟨by decide, by decide, by decide, by decide, by decide⟩

/-! ### Claim C4 -/

/-- Claim C4, corrected: during measurement-catalog pagination a non-success
status on any page — the very first page included — stops pagination for
that endpoint only, surfaces no error, and leaves the map entries gathered
so far intact; the builder always returns `ok`, the result being the
user-scoped endpoint's pass over the global endpoint's pass. -/
theorem fetchMeasurements_bad_status_swallowed (resp : MeasEndpoint → Nat → MeasPage)
    (fuel : Nat) (ep : MeasEndpoint) (p f : Nat) (m : MeasMap) :
    ((resp ep p).status ≠ 200 → fetchFromEndpoint (resp ep) (f + 1) p m = m) ∧
    ∃ mm, fetchMeasurements resp fuel = .ok mm ∧
      mm = fetchFromEndpoint (resp .user) fuel 0 (fetchFromEndpoint (resp .global) fuel 0 []) := by
  constructor
  · intro h
    rw [fetchFromEndpoint, if_pos h]
  · exact ⟨_, rfl, rfl⟩

/-- A response oracle whose global catalog answers 500 on its very first
page while the user catalog answers one entry. -/
def c4resp : MeasEndpoint → Nat → MeasPage :=
  fun ep _ =>
    match ep with
    | .global => { status := 500 }
    | .user =>
      { status := 200
        measurement := some [{ id := "m1", name := some { en := some "Bench Press" } }] }

/-- Counterexample to C4's exception clause: the very first page of the
global catalog fails with status 500, yet the builder surfaces no failure —
it returns `ok` with the user endpoint's entries. -/
theorem fetchMeasurements_first_page_bad_status_ok_cex :
    (c4resp .global 0).status ≠ 200 ∧
    fetchMeasurements c4resp 3 = .ok [("m1", "Bench Press")] :=
  ⟨by decide, rfl⟩

/-- Witness for the corrected C4 at the concrete oracle. -/
theorem fetchMeasurements_bad_status_swallowed_witness :
    fetchFromEndpoint (c4resp .global) (2 + 1) 0 [] = [] ∧
    ∃ mm, fetchMeasurements c4resp 2 = .ok mm ∧
      mm = fetchFromEndpoint (c4resp .user) 2 0 (fetchFromEndpoint (c4resp .global) 2 0 []) :=
  ⟨(fetchMeasurements_bad_status_swallowed c4resp 2 .global 0 2 []).1 (by decide),
   (fetchMeasurements_bad_status_swallowed c4resp 2 .global 0 2 []).2⟩

end StrongExporter
